import Mathlib

/-!
# Verification of the retro-portfolio-maker admin content core

Shallow embedding of the content-item repository of
`engine/admin/admin_api.py`, `engine/admin/scripts/manager.py` and
`engine/admin/scripts/config_loader.py`.

JSON documents parsed by Python's `json` module are modelled by `JVal`.
Python dictionaries are modelled as ordered association lists (insertion
order preserved, no duplicate keys in values produced by `json.loads`);
`objGet`/`objSet`/`objDel` mirror `d.get`, `d[k] = v` and `del d[k]`.
Python truthiness, iteration, `len` and `list.pop` are modelled by
`pyTruthy`, `pyIter`, `pyLen` and `pyPop` with Python's semantics
(negative pop indices count from the end; out-of-range pop raises).

Each HTTP handler is modelled as a pure function from the parsed category
document (plus request parameters) to `Except ApiErr`; a `.ok` result
carries the item list passed to `json.dump`, so an `.error` result means
the handler returned before the write and the file on disk is unchanged.
-/

namespace Portfolio

/-- A parsed JSON value, as produced by Python's `json.loads`. -/
inductive JVal where
  | jNull : JVal
  | jBool : Bool → JVal
  | jNum : Int → JVal
  | jStr : String → JVal
  | jArr : List JVal → JVal
  | jObj : List (String × JVal) → JVal

/-- The failure outcomes a handler can produce: explicit error responses
(404 / 400 JSON bodies) and uncaught Python exceptions that surface as
HTTP 500 (`attrError`, `indexError`, `typeError`, `parseError`). -/
inductive ApiErr where
  | requiredMissing : ApiErr
  | fileNotFound : ApiErr
  | notFound : ApiErr
  | invalidIndex : ApiErr
  | invalidJson : ApiErr
  | parseError : ApiErr
  | attrError : ApiErr
  | indexError : ApiErr
  | typeError : ApiErr
  deriving DecidableEq

/-- The state of a category's backing file as each handler's load code
observes it: absent, present with only whitespace, present with
non-empty unparseable content, or parseable to a `JVal`. -/
inductive FileData where
  | missing : FileData
  | empty : FileData
  | malformed : FileData
  | parsed : JVal → FileData

/-- `d.get(k)` on a Python dict (first binding; parsed dicts have unique keys). -/
def objGet (fs : List (String × JVal)) (k : String) : Option JVal :=
  (fs.find? fun p => p.1 == k).map (fun p => p.2)

/-- `d.get(k, dflt)`. -/
def objGetD (fs : List (String × JVal)) (k : String) (dflt : JVal) : JVal :=
  (objGet fs k).getD dflt

/-- `k in d`. -/
def objHas (fs : List (String × JVal)) (k : String) : Bool :=
  fs.any fun p => p.1 == k

/-- `d[k] = v`: replace in place when the key exists, else append
(Python dicts keep insertion order). -/
def objSet (fs : List (String × JVal)) (k : String) (v : JVal) : List (String × JVal) :=
  if objHas fs k then fs.map (fun p => if p.1 == k then (k, v) else p)
  else fs ++ [(k, v)]

/-- `del d[k]`. -/
def objDel (fs : List (String × JVal)) (k : String) : List (String × JVal) :=
  fs.filter fun p => !(p.1 == k)

/-- Python truthiness of a JSON value. -/
def pyTruthy : JVal → Bool
  | .jNull => false
  | .jBool b => b
  | .jNum n => n != 0
  | .jStr s => s != ""
  | .jArr xs => !xs.isEmpty
  | .jObj fs => !fs.isEmpty

/-- Python iteration over a JSON value: lists yield elements, dicts yield
their keys, strings yield one-character strings, everything else raises
`TypeError`. -/
def pyIter : JVal → Except ApiErr (List JVal)
  | .jArr xs => .ok xs
  | .jObj fs => .ok (fs.map fun p => .jStr p.1)
  | .jStr s => .ok (s.toList.map fun c => .jStr (String.mk [c]))
  | _ => .error .typeError

/-- Python `len`. -/
def pyLen : JVal → Except ApiErr Nat
  | .jArr xs => .ok xs.length
  | .jObj fs => .ok fs.length
  | .jStr s => .ok s.length
  | _ => .error .typeError

/-- Python `list.pop(i)`: negative indices count from the end, out of
range raises `IndexError` (modelled as `none`). -/
def pyPop (xs : List JVal) (i : Int) : Option (JVal × List JVal) :=
  let j : Int := if i < 0 then i + xs.length else i
  if h : 0 ≤ j ∧ j < xs.length then
    some (xs.get ⟨j.toNat, by omega⟩, xs.eraseIdx j.toNat)
  else none

/-- Python `value == s` for a string `s` on a possibly-absent JSON value:
true exactly when the value is the string `s` (Python equality between a
string and a value of another type, or `None`, is `False`). -/
def eqStrVal (o : Option JVal) (s : String) : Bool :=
  match o with
  | some (.jStr t) => t == s
  | _ => false

/-- The processed title used for identifier matching:
`item_title = item.get("title"); if isinstance(item_title, dict):
item_title = item_title.get("en", "")`. -/
def titleVal (fs : List (String × JVal)) : Option JVal :=
  match objGet fs "title" with
  | some (.jObj tfs) => some (objGetD tfs "en" (.jStr ""))
  | o => o

/-- The match test of `update_content`, `get_single_item`, `delete_item`
and `extract_from_pile`:
`item.get("id") == item_id or item_title == item_id`. -/
def matchesIdOrTitle (fs : List (String × JVal)) (ident : String) : Bool :=
  eqStrVal (objGet fs "id") ident || eqStrVal (titleVal fs) ident

/-- The merged identifier of `move_to_pile` and `add_to_pile`:
`item_identifier = item.get("id") or item_title` (Python `or`: a falsy
`id` falls through to the processed title). -/
def identVal (fs : List (String × JVal)) : Option JVal :=
  match objGet fs "id" with
  | some v => if pyTruthy v then some v else titleVal fs
  | none => titleVal fs

/-- `item_identifier == ident` for `move_to_pile` / `add_to_pile`. -/
def matchesIdent (fs : List (String × JVal)) (ident : String) : Bool :=
  eqStrVal (identVal fs) ident

/-- The id-or-title match test lifted to a list element (a non-dict
element never matches; the scans raise on it before using the result). -/
def itemMatches (it : JVal) (ident : String) : Bool :=
  match it with
  | .jObj fs => matchesIdOrTitle fs ident
  | _ => false

/-- `if not <python value>` on an optional value: true when the value is
absent or falsy. -/
def pyFalsyOpt : Option JVal → Bool
  | none => true
  | some v => !pyTruthy v

/-! ## Category Store: per-handler load behaviour

Each handler in the source has its own inline load code; the four
distinct patterns are modelled as functions of `FileData`. -/

/-- `upload_and_save` / `save_from_url` (manager.py): missing file,
whitespace-only file and a `json.JSONDecodeError` all yield `[]`. -/
def upload_load : FileData → JVal
  | .missing => .jArr []
  | .empty => .jArr []
  | .malformed => .jArr []
  | .parsed v => v

/-- `delete_item` (manager.py): missing file is an explicit error,
whitespace-only yields `[]`, `json.JSONDecodeError` is caught and
returned as the explicit error `"Invalid JSON in data file"`. -/
def delete_item_load : FileData → Except ApiErr JVal
  | .missing => .error .fileNotFound
  | .empty => .ok (.jArr [])
  | .malformed => .error .invalidJson
  | .parsed v => .ok v

/-- `update_content` / `move_to_pile` (admin_api.py): missing file is a
404, `content.strip()` being empty yields `[]`, and `json.loads` on
malformed content raises, surfacing as a 500 response. -/
def update_content_load : FileData → Except ApiErr JVal
  | .missing => .error .fileNotFound
  | .empty => .ok (.jArr [])
  | .malformed => .error .parseError
  | .parsed v => .ok v

/-- `get_single_item` / `extract_from_pile` / `add_to_pile`
(admin_api.py): missing file is a 404 and a bare `json.load(f)` raises
on a whitespace-only or malformed file, surfacing as a 500 response. -/
def json_module_load : FileData → Except ApiErr JVal
  | .missing => .error .fileNotFound
  | .empty => .error .parseError
  | .malformed => .error .parseError
  | .parsed v => .ok v

/-- The read-only listing route `GET /api/content/<category>`
(`get_content`): a missing file yields `{"items": []}`; otherwise the
raw parsed document is returned, and `json.load` failures surface as an
error response. -/
def get_content : FileData → Except ApiErr JVal
  | .missing => .ok (.jObj [("items", .jArr [])])
  | .empty => .error .parseError
  | .malformed => .error .parseError
  | .parsed v => .ok v

/-- The per-category normalization of `GET /api/content`
(`get_all_content`): an object with an `items` key contributes that
value, a bare array contributes itself, anything else contributes `[]`. -/
def get_all_content_normalize : JVal → JVal
  | .jObj fs =>
    match objGet fs "items" with
    | some v => v
    | none => .jArr []
  | .jArr xs => .jArr xs
  | _ => .jArr []

/-! ## Identifier scans (one per handler, as in the source) -/

/-- The scan of `update_content`: break at the first item matching by id
or English title, apply the updates to it shallowly (`item[key] = value`
for every pair, in order), keep everything else. `none` means no match.
Calling `.get` on a non-dict element raises `AttributeError`; items after
the first match are never visited (the loop breaks). -/
def update_scan (item_id : String) (updates : List (String × JVal)) :
    List JVal → Except ApiErr (Option (List JVal))
  | [] => .ok none
  | .jObj fs :: rest =>
    if matchesIdOrTitle fs item_id then
      .ok (some (.jObj (updates.foldl (fun a p => objSet a p.1 p.2) fs) :: rest))
    else
      match update_scan item_id updates rest with
      | .ok none => .ok none
      | .ok (some r) => .ok (some (.jObj fs :: r))
      | .error e => .error e
  | _ :: _ => .error .attrError

/-- The scan of `get_single_item`: return the first item matching by id
or English title. -/
def find_first_match (ident : String) : List JVal → Except ApiErr (Option JVal)
  | [] => .ok none
  | .jObj fs :: rest =>
    if matchesIdOrTitle fs ident then .ok (some (.jObj fs))
    else find_first_match ident rest
  | _ :: _ => .error .attrError

/-- The scan of `delete_item` (manager.py): no break, so every matching
item is dropped from `new_data` and `item_to_delete` ends up being the
last match. -/
def delete_scan (ident : String) : List JVal → Except ApiErr (Option JVal × List JVal)
  | [] => .ok (none, [])
  | .jObj fs :: rest =>
    match delete_scan ident rest with
    | .error e => .error e
    | .ok (d, keep) =>
      if matchesIdOrTitle fs ident then .ok (some (d.getD (.jObj fs)), keep)
      else .ok (d, .jObj fs :: keep)
  | _ :: _ => .error .attrError

/-- The scan of `move_to_pile`: `if item_identifier == source_id` keeps
the item out of `remaining_items` (and remembers the last such item);
`elif item_identifier == target_id` remembers the item and its position
in `remaining_items`; everything else is appended to `remaining_items`. -/
def move_scan (sid tid : String) :
    List JVal → Option JVal → Option (Nat × JVal) → List JVal →
    Except ApiErr (Option JVal × Option (Nat × JVal) × List JVal)
  | [], s, t, rem => .ok (s, t, rem)
  | .jObj fs :: rest, s, t, rem =>
    if matchesIdent fs sid then move_scan sid tid rest (some (.jObj fs)) t rem
    else if matchesIdent fs tid then
      move_scan sid tid rest s (some (rem.length, .jObj fs)) (rem ++ [.jObj fs])
    else move_scan sid tid rest s t (rem ++ [.jObj fs])
  | _ :: _, _, _, _ => .error .attrError

/-- The scan of `add_to_pile`: two independent `if`s without break, so
the last source match and the last target match win; positions refer to
the full item list. -/
def add_scan (sid tid : String) :
    List JVal → Nat → Option (Nat × JVal) → Option (Nat × JVal) →
    Except ApiErr (Option (Nat × JVal) × Option (Nat × JVal))
  | [], _, s, t => .ok (s, t)
  | .jObj fs :: rest, i, s, t =>
    add_scan sid tid rest (i + 1)
      (if matchesIdent fs sid then some (i, .jObj fs) else s)
      (if matchesIdent fs tid then some (i, .jObj fs) else t)
  | _ :: _, _, _, _ => .error .attrError

/-- The scan of `extract_from_pile`: break at the first item matching by
id or English title, remembering its position. -/
def extract_scan (ident : String) : List JVal → Nat → Except ApiErr (Option (Nat × List (String × JVal)))
  | [], _ => .ok none
  | .jObj fs :: rest, i =>
    if matchesIdOrTitle fs ident then .ok (some (i, fs))
    else extract_scan ident rest (i + 1)
  | _ :: _, _ => .error .attrError

/-! ## Multilingual Field Builder -/

/-- `ConfigLoader.create_multilingual_object` (config_loader.py):
`{code: value for code in self.get_language_codes()}`. -/
def create_multilingual_object (langs : List String) (v : JVal) : JVal :=
  .jObj (langs.map fun c => (c, v))

/-- `make_multilingual` (manager.py, inside `upload_and_save`):
`if not value: return None` else the multilingual object. The scalar is
a form field: absent (`None`) or a string; both `None` and `""` are
falsy. -/
def make_multilingual (langs : List String) (value : Option String) : Option JVal :=
  match value with
  | none => none
  | some s => if s == "" then none else some (create_multilingual_object langs (.jStr s))

/-! ## Item Mutation Operations -/

/-- `update_content` (admin_api.py), from the parsed document on: scan,
shallow-update the first match, save the whole list. A `.ok` carries the
list written back to disk; every `.error` is returned before the write. -/
def update_content_core (doc : JVal) (item_id : String) (updates : List (String × JVal)) :
    Except ApiErr (List JVal) :=
  match pyIter doc with
  | .error e => .error e
  | .ok items =>
    match update_scan item_id updates items with
    | .error e => .error e
    | .ok none => .error .notFound
    | .ok (some saved) => .ok saved

/-- `update_content` (admin_api.py) from the file state on. -/
def update_content (fd : FileData) (item_id : String) (updates : List (String × JVal)) :
    Except ApiErr (List JVal) :=
  match update_content_load fd with
  | .error e => .error e
  | .ok doc => update_content_core doc item_id updates

/-- `get_single_item` (admin_api.py), from the parsed document on. -/
def get_single_item_core (doc : JVal) (item_id : String) : Except ApiErr JVal :=
  match pyIter doc with
  | .error e => .error e
  | .ok items =>
    match find_first_match item_id items with
    | .error e => .error e
    | .ok none => .error .notFound
    | .ok (some it) => .ok it

/-- `get_single_item` (admin_api.py) from the file state on. -/
def get_single_item (fd : FileData) (item_id : String) : Except ApiErr JVal :=
  match json_module_load fd with
  | .error e => .error e
  | .ok doc => get_single_item_core doc item_id

/-- `delete_item` (manager.py), from the parsed document on. The cloud
deletions are external collaborator calls (best-effort, never blocking
the JSON mutation) and are not modelled; `.ok` carries `new_data`, the
list written back. -/
def delete_item_core (doc : JVal) (item_id : String) : Except ApiErr (List JVal) :=
  match pyIter doc with
  | .error e => .error e
  | .ok items =>
    match delete_scan item_id items with
    | .error e => .error e
    | .ok (none, _) => .error .notFound
    | .ok (some d, keep) => if pyTruthy d then .ok keep else .error .notFound

/-- `delete_item` (manager.py) from the file state on. -/
def delete_item (fd : FileData) (item_id : String) : Except ApiErr (List JVal) :=
  match delete_item_load fd with
  | .error e => .error e
  | .ok doc => delete_item_core doc item_id

/-- `move_to_pile` (admin_api.py), from the parsed document on: find
source and target (last match each), drop every source match from the
remaining list, append the source's `url` (when the key is present) and
then the source's `gallery` entries onto the target's gallery (created
when absent), and save the remaining list. Returns the saved list and
`targetGalleryCount`. -/
def move_to_pile_core (doc : JVal) (sid tid : String) : Except ApiErr (List JVal × Nat) :=
  match pyIter doc with
  | .error e => .error e
  | .ok items =>
    match move_scan sid tid items none none [] with
    | .error e => .error e
    | .ok (s, t, rem) =>
      match s, t with
      | some sv, some (ti, tv) =>
        if !pyTruthy sv || !pyTruthy tv then .error .notFound
        else
          match sv, tv with
          | .jObj sfs, .jObj tfs =>
            let tfs1 := if objHas tfs "gallery" then tfs else objSet tfs "gallery" (.jArr [])
            match objGet tfs1 "gallery" with
            | some (.jArr g0) =>
              let g1 := if objHas sfs "url" then g0 ++ [objGetD sfs "url" .jNull] else g0
              match objGet sfs "gallery" with
              | some gv =>
                match pyIter gv with
                | .error e => .error e
                | .ok ex =>
                  let g2 := g1 ++ ex
                  .ok (rem.set ti (.jObj (objSet tfs1 "gallery" (.jArr g2))), g2.length)
              | none =>
                .ok (rem.set ti (.jObj (objSet tfs1 "gallery" (.jArr g1))), g1.length)
            | _ => .error .attrError
          | _, _ => .error .attrError
      | _, _ => .error .notFound

/-- `move_to_pile` (admin_api.py) from the file state on, including the
required-parameter check (`if not all([category, source_id, target_id])`). -/
def move_to_pile (fd : FileData) (sid tid : Option String) : Except ApiErr (List JVal × Nat) :=
  match sid, tid with
  | some sidS, some tidS =>
    if sidS == "" || tidS == "" then .error .requiredMissing
    else
      match update_content_load fd with
      | .error e => .error e
      | .ok doc => move_to_pile_core doc sidS tidS
  | _, _ => .error .requiredMissing

/-- `add_to_pile` (admin_api.py), from the parsed document on: find
source and target (last match each, positions in the full list), check
`'gallery' not in source_item or image_index >= len(...)`, pop the
source gallery at the index (Python semantics: negative indices count
from the end), append the popped URL to the target's gallery (created
when absent), save the full list. Returns the saved list and
`targetGalleryCount`. -/
def add_to_pile_core (doc : JVal) (sid tid : String) (image_index : Int) :
    Except ApiErr (List JVal × Nat) :=
  match pyIter doc with
  | .error e => .error e
  | .ok items =>
    match add_scan sid tid items 0 none none with
    | .error e => .error e
    | .ok (s, t) =>
      match s with
      | none => .error .notFound
      | some (si, sv) =>
        if !pyTruthy sv then .error .notFound
        else
          match t with
          | none => .error .notFound
          | some (ti, tv) =>
            if !pyTruthy tv then .error .notFound
            else
              match sv with
              | .jObj sfs =>
                match objGet sfs "gallery" with
                | none => .error .invalidIndex
                | some gv =>
                  match pyLen gv with
                  | .error e => .error e
                  | .ok n =>
                    if image_index ≥ (n : Int) then .error .invalidIndex
                    else
                      match gv with
                      | .jArr g =>
                        match pyPop g image_index with
                        | none => .error .indexError
                        | some (u, gPopped) =>
                          let items1 := items.set si (.jObj (objSet sfs "gallery" (.jArr gPopped)))
                          match items1.getD ti .jNull with
                          | .jObj tfs =>
                            let tfs1 :=
                              if objHas tfs "gallery" then tfs
                              else objSet tfs "gallery" (.jArr [])
                            match objGet tfs1 "gallery" with
                            | some (.jArr tg) =>
                              .ok (items1.set ti (.jObj (objSet tfs1 "gallery" (.jArr (tg ++ [u])))),
                                tg.length + 1)
                            | _ => .error .attrError
                          | _ => .error .attrError
                      | _ => .error .attrError
              | _ => .error .attrError

/-- `add_to_pile` (admin_api.py) from the file state on, including the
required-parameter check (`not source_id`, `not target_id`,
`image_url is None`, `image_index is None`). -/
def add_to_pile (fd : FileData) (sid tid : Option String) (image_url : Option JVal)
    (image_index : Option Int) : Except ApiErr (List JVal × Nat) :=
  match sid, tid with
  | some sidS, some tidS =>
    if sidS == "" || tidS == "" then .error .requiredMissing
    else
      match image_url, image_index with
      | some _, some idx =>
        match json_module_load fd with
        | .error e => .error e
        | .ok doc => add_to_pile_core doc sidS tidS idx
      | _, _ => .error .requiredMissing
  | _, _ => .error .requiredMissing

/-- The request-independent configuration of `extract_from_pile`: the
category name, the configured language codes, `int(time.time())` and
`time.strftime(\x7b'%Y-%m-%d' rendered\x7d)` at the moment of the call. -/
structure ExtractCfg where
  category : String
  langs : List String
  ts : Nat
  today : String

/-- The generated fallback title of `extract_from_pile`:
`"Photo {1-based index} from {source title}"` with the English source
title, `'Untitled'` when the title is absent, an empty/falsy scalar, or
a mapping without an `"en"` entry whose default applies. (A truthy
non-string scalar title would be rendered by the f-string; no claim
reaches that corner and it is rendered as `'Untitled'` here.) -/
def extract_fallback_title (sfs : List (String × JVal)) (image_index : Int) : String :=
  let sourceTitleEn :=
    match objGet sfs "title" with
    | some (.jObj tfs) =>
      match objGetD tfs "en" (.jStr "Untitled") with
      | .jStr s => s
      | _ => "Untitled"
    | some (.jStr s) => if s == "" then "Untitled" else s
    | some _ => "Untitled"
    | none => "Untitled"
  "Photo " ++ toString (image_index + 1) ++ " from " ++ sourceTitleEn

/-- The metadata step of `extract_from_pile` (admin_api.py:588-589):
`if 'galleryMetadata' in source_item and extracted_url in
source_item['galleryMetadata']: del ...`. When the key is absent,
Python's `and` short-circuits and nothing happens. When the metadata is
a mapping, the `in` test hashes the popped value: a string is looked up
among the keys (and deleted when present); `None`, booleans and numbers
are hashable and never equal a string key, so nothing happens; a list or
dict operand raises an uncaught `TypeError` (HTTP 500, no write). A
present non-mapping metadata value is never produced by this codebase's
writers and is modelled as a no-op. -/
def delete_metadata_entry (sfs1 : List (String × JVal)) (extracted : JVal) :
    Except ApiErr (List (String × JVal)) :=
  match objGet sfs1 "galleryMetadata", extracted with
  | some (.jObj mfs), .jStr u =>
    if objHas mfs u then .ok (objSet sfs1 "galleryMetadata" (.jObj (objDel mfs u)))
    else .ok sfs1
  | some (.jObj _), .jArr _ => .error .typeError
  | some (.jObj _), .jObj _ => .error .typeError
  | _, _ => .ok sfs1

/-- `extract_from_pile` (admin_api.py), from the parsed document on:
find the source (first match), bound-check, pop the gallery entry, run
the `galleryMetadata` deletion step (`delete_metadata_entry`), build the
new standalone item and append it. Returns the saved list, the new
title and the new id. -/
def extract_from_pile_core (cfg : ExtractCfg) (doc : JVal) (source_id : String)
    (image_index : Int) (custom_title : Option String) (custom_description : String) :
    Except ApiErr (List JVal × String × String) :=
  match pyIter doc with
  | .error e => .error e
  | .ok items =>
    match extract_scan source_id items 0 with
    | .error e => .error e
    | .ok none => .error .notFound
    | .ok (some (si, sfs)) =>
      if !pyTruthy (.jObj sfs) then .error .notFound
      else
        match objGet sfs "gallery" with
        | none => .error .invalidIndex
        | some gv =>
          match pyLen gv with
          | .error e => .error e
          | .ok n =>
            if image_index ≥ (n : Int) then .error .invalidIndex
            else
              match gv with
              | .jArr g =>
                match pyPop g image_index with
                | none => .error .indexError
                | some (extracted, gPopped) =>
                  match delete_metadata_entry (objSet sfs "gallery" (.jArr gPopped)) extracted with
                  | .error e => .error e
                  | .ok sfs2 =>
                    let newTitle :=
                      match custom_title with
                      | some ctl =>
                        if ctl == "" then extract_fallback_title sfs image_index else ctl
                      | none => extract_fallback_title sfs image_index
                    let newId := cfg.category ++ "_extracted_" ++ toString cfg.ts
                    let newItem : JVal := .jObj [
                      ("id", .jStr newId),
                      ("title", create_multilingual_object cfg.langs (.jStr newTitle)),
                      ("url", extracted),
                      ("date", objGetD sfs "date" (.jStr cfg.today)),
                      ("created", .jStr cfg.today),
                      ("description",
                        create_multilingual_object cfg.langs (.jStr custom_description))]
                    .ok (items.set si (.jObj sfs2) ++ [newItem], newTitle, newId)
              | _ => .error .attrError

/-- `extract_from_pile` (admin_api.py) from the file state on, including
the required-parameter check. -/
def extract_from_pile (cfg : ExtractCfg) (fd : FileData) (source_id : Option String)
    (image_url : Option JVal) (image_index : Option Int) (custom_title : Option String)
    (custom_description : String) : Except ApiErr (List JVal × String × String) :=
  match source_id with
  | none => .error .requiredMissing
  | some sidS =>
    if sidS == "" then .error .requiredMissing
    else
      match image_url, image_index with
      | some _, some idx =>
        match json_module_load fd with
        | .error e => .error e
        | .ok doc => extract_from_pile_core cfg doc sidS idx custom_title custom_description
      | _, _ => .error .requiredMissing

/-- The JSON part of `upload_and_save` (manager.py): load (resetting on
malformed content), append the new entry, save. `data.append` on a
non-list parsed document raises `AttributeError`. -/
def upload_and_save (fd : FileData) (new_entry : List (String × JVal)) :
    Except ApiErr (List JVal) :=
  match upload_load fd with
  | .jArr xs => .ok (xs ++ [.jObj new_entry])
  | _ => .error .attrError

/-- The `new_entry` built by `upload_and_save` (manager.py): `title` is
always present (null when the builder returns `None`); `gallery`,
`medium`, `genre` and `description` are added only when their source
value is truthy; `created` falls back to today. -/
def upload_new_entry (langs : List String) (category : String) (ts : Nat) (today : String)
    (title medium genre description created : Option String)
    (media_url : JVal) (gallery_urls : List JVal) : List (String × JVal) :=
  let strOrToday : Option String → String := fun c =>
    match c with
    | some s => if s == "" then today else s
    | none => today
  let base : List (String × JVal) := [
    ("id", .jStr (category ++ "_" ++ toString ts)),
    ("title", (make_multilingual langs title).getD .jNull),
    ("url", media_url),
    ("date", .jStr today),
    ("created", .jStr (strOrToday created))]
  let withGallery :=
    if gallery_urls.isEmpty then base else base ++ [("gallery", .jArr gallery_urls)]
  let addIf : List (String × JVal) → String → Option String → List (String × JVal) :=
    fun fs k v =>
      match v with
      | some s =>
        if s == "" then fs else fs ++ [(k, (make_multilingual langs (some s)).getD .jNull)]
      | none => fs
  addIf (addIf (addIf withGallery "medium" medium) "genre" genre) "description" description

/-! ## The gallery-metadata invariant of the spec (section 3) -/

/-- The `gallery` list of an item (empty when absent or not a list). -/
def galleryList (fs : List (String × JVal)) : List JVal :=
  match objGet fs "gallery" with
  | some (.jArr xs) => xs
  | _ => []

/-- The keys of the `galleryMetadata` mapping of an item (empty when
absent or not a mapping). -/
def metaKeys (fs : List (String × JVal)) : List String :=
  match objGet fs "galleryMetadata" with
  | some (.jObj ms) => ms.map fun p => p.1
  | _ => []

/-- Whether the gallery contains the URL string `k` as a value. -/
def galleryHasUrl (g : List JVal) (k : String) : Bool :=
  g.any fun v => eqStrVal (some v) k

/-- Spec section 3: "`galleryMetadata` keys are always a subset of
`gallery` values", for one item. -/
def itemInv : JVal → Bool
  | .jObj fs => (metaKeys fs).all fun k => galleryHasUrl (galleryList fs) k
  | _ => true

/-- The invariant over a whole category sequence. -/
def seqInv (items : List JVal) : Bool := items.all itemInv

/-! ## Shapes used in the theorems -/

/-- A pile item with a stable id and a gallery, the shape of the spec's
pile examples. -/
def pileItem (idv : String) (g : List JVal) : JVal :=
  .jObj [("id", .jStr idv), ("gallery", .jArr g)]

/-- Whether a handler result is a success. -/
def exceptIsOk {α : Type} : Except ApiErr α → Bool
  | .ok _ => true
  | .error _ => false

/-! ## Helper lemmas: Python pop and list surgery -/

theorem pyPop_int_nonneg (xs : List JVal) (i : Int) (h0 : 0 ≤ i) (h1 : i < xs.length)
    (h2 : i.toNat < xs.length) :
    pyPop xs i = some (xs.get ⟨i.toNat, h2⟩, xs.eraseIdx i.toNat) := by
  unfold pyPop
  have hij : ¬ i < 0 := by omega
  simp only [hij, if_false]
  rw [dif_pos ⟨h0, h1⟩]

theorem pyPop_int_neg (xs : List JVal) (i : Int) (h0 : -(xs.length : Int) ≤ i) (h1 : i < 0)
    (h2 : (i + xs.length).toNat < xs.length) :
    pyPop xs i = some (xs.get ⟨(i + xs.length).toNat, h2⟩, xs.eraseIdx (i + xs.length).toNat) := by
  unfold pyPop
  simp only [h1, if_true]
  rw [dif_pos ⟨by omega, by omega⟩]

theorem pyPop_too_neg (xs : List JVal) (i : Int) (h1 : i < -(xs.length : Int)) :
    pyPop xs i = none := by
  unfold pyPop
  have hij : i < 0 := by omega
  simp only [hij, if_true]
  rw [dif_neg]
  omega

theorem concat_eraseIdx_last (l : List JVal) (u : JVal) : (l ++ [u]).eraseIdx l.length = l := by
  induction l with
  | nil => rfl
  | cons x xs ih => simpa using ih

theorem concat_get_last (l : List JVal) (u : JVal) (h : l.length < (l ++ [u]).length) :
    (l ++ [u]).get ⟨l.length, h⟩ = u := by
  induction l with
  | nil => rfl
  | cons x xs ih => exact ih (by simp)

theorem set_append_cons {α : Type} (l1 : List α) (a : α) (l2 : List α) (b : α) :
    (l1 ++ a :: l2).set l1.length b = l1 ++ b :: l2 := by
  induction l1 with
  | nil => rfl
  | cons x xs ih => simp [ih]

theorem mem_eraseIdx_of_ne {α : Type} (l : List α) (i : Nat) (h : i < l.length) (a : α)
    (ha : a ∈ l) (hne : a ≠ l.get ⟨i, h⟩) : a ∈ l.eraseIdx i := by
  induction l generalizing i with
  | nil => cases ha
  | cons x xs ih =>
    cases i with
    | zero =>
      rcases List.mem_cons.mp ha with h1 | hmem
      · exact absurd h1 hne
      · simpa using hmem
    | succ j =>
      have hj : j < xs.length := by simpa using h
      rcases List.mem_cons.mp ha with h1 | hmem
      · simp [List.eraseIdx, h1]
      · have : a ∈ xs.eraseIdx j := ih j hj hmem hne
        simpa using Or.inr this

theorem cons_get_eraseIdx_perm (l : List JVal) (i : Nat) (h : i < l.length) :
    List.Perm (l.get ⟨i, h⟩ :: l.eraseIdx i) l := by
  induction l generalizing i with
  | nil => cases h
  | cons x xs ih =>
    cases i with
    | zero => simp [List.eraseIdx]
    | succ j =>
      have hj : j < xs.length := by simpa using h
      have e1 : (x :: xs).get ⟨j + 1, h⟩ = xs.get ⟨j, hj⟩ := rfl
      have e2 : (x :: xs).eraseIdx (j + 1) = x :: xs.eraseIdx j := rfl
      rw [e1, e2]
      exact (List.Perm.swap x (xs.get ⟨j, hj⟩) _).trans ((ih j hj).cons x)

theorem eraseIdx_concat_get_perm (l : List JVal) (i : Nat) (h : i < l.length) :
    List.Perm (l.eraseIdx i ++ [l.get ⟨i, h⟩]) l :=
  (List.perm_append_singleton _ _).trans (cons_get_eraseIdx_perm l i h)

theorem eqStrVal_some_iff (v : JVal) (k : String) :
    eqStrVal (some v) k = true ↔ v = JVal.jStr k := by
  cases v <;> simp [eqStrVal]

theorem galleryHasUrl_iff (g : List JVal) (k : String) :
    galleryHasUrl g k = true ↔ JVal.jStr k ∈ g := by
  simp [galleryHasUrl, List.any_eq_true, eqStrVal_some_iff]

theorem move_scan_skip (sid tid : String) (L M : List JVal) (s : Option JVal)
    (t : Option (Nat × JVal)) (rem : List JVal)
    (hL : ∀ it ∈ L, ∃ fs, it = JVal.jObj fs ∧ matchesIdent fs sid = false ∧
      matchesIdent fs tid = false) :
    move_scan sid tid (L ++ M) s t rem = move_scan sid tid M s t (rem ++ L) := by
  induction L generalizing rem with
  | nil => simp
  | cons x xs ih =>
    obtain ⟨fs, rfl, hs, ht⟩ := hL x (List.mem_cons_self _ _)
    have hxs := fun it hit => hL it (List.mem_cons_of_mem _ hit)
    have step : move_scan sid tid (JVal.jObj fs :: (xs ++ M)) s t rem =
        move_scan sid tid (xs ++ M) s t (rem ++ [JVal.jObj fs]) := by
      simp [move_scan, hs, ht]
    calc move_scan sid tid ((JVal.jObj fs :: xs) ++ M) s t rem
        = move_scan sid tid (xs ++ M) s t (rem ++ [JVal.jObj fs]) := step
      _ = move_scan sid tid M s t ((rem ++ [JVal.jObj fs]) ++ xs) := ih _ hxs
      _ = move_scan sid tid M s t (rem ++ (JVal.jObj fs :: xs)) := by
          rw [List.append_assoc]
          rfl

theorem move_scan_self (i : String) (L : List JVal)
    (hL : ∀ it ∈ L, ∃ fs, it = JVal.jObj fs) (s : Option JVal) (rem : List JVal) :
    ∃ s2 rem2, move_scan i i L s none rem = .ok (s2, none, rem2) := by
  induction L generalizing s rem with
  | nil => exact ⟨s, rem, rfl⟩
  | cons x xs ih =>
    obtain ⟨fs, rfl⟩ := hL x (List.mem_cons_self _ _)
    have hxs := fun it hit => hL it (List.mem_cons_of_mem _ hit)
    cases hm : matchesIdent fs i with
    | true => simpa [move_scan, hm] using ih hxs _ _
    | false => simpa [move_scan, hm] using ih hxs _ _

theorem update_scan_none (item_id : String) (updates : List (String × JVal)) (items : List JVal)
    (h : ∀ it ∈ items, ∃ fs, it = JVal.jObj fs ∧ matchesIdOrTitle fs item_id = false) :
    update_scan item_id updates items = .ok none := by
  induction items with
  | nil => rfl
  | cons x xs ih =>
    obtain ⟨fs, rfl, hm⟩ := h x (List.mem_cons_self _ _)
    have hxs := ih (fun it hit => h it (List.mem_cons_of_mem _ hit))
    simp [update_scan, hm, hxs]

theorem find_first_match_skip (a : String) (pre rest : List JVal)
    (h : ∀ it ∈ pre, ∃ fs, it = JVal.jObj fs ∧ matchesIdOrTitle fs a = false) :
    find_first_match a (pre ++ rest) = find_first_match a rest := by
  induction pre with
  | nil => rfl
  | cons x xs ih =>
    obtain ⟨fs, rfl, hm⟩ := h x (List.mem_cons_self _ _)
    simp [find_first_match, hm, ih (fun it hit => h it (List.mem_cons_of_mem _ hit))]

theorem update_scan_found (a : String) (updates : List (String × JVal)) (pre post : List JVal)
    (xfs : List (String × JVal))
    (hpre : ∀ it ∈ pre, ∃ fs, it = JVal.jObj fs ∧ matchesIdOrTitle fs a = false)
    (hx : matchesIdOrTitle xfs a = true) :
    update_scan a updates (pre ++ JVal.jObj xfs :: post) =
      .ok (some (pre ++
        JVal.jObj (updates.foldl (fun acc p => objSet acc p.1 p.2) xfs) :: post)) := by
  induction pre with
  | nil => simp [update_scan, hx]
  | cons p rest ih =>
    obtain ⟨fs, rfl, hm⟩ := hpre p (List.mem_cons_self _ _)
    have ih2 := ih (fun it hit => hpre it (List.mem_cons_of_mem _ hit))
    simp [update_scan, hm, ih2]

theorem delete_scan_nomatch (ident : String) (l : List JVal)
    (h : ∀ it ∈ l, ∃ fs, it = JVal.jObj fs ∧ matchesIdOrTitle fs ident = false) :
    delete_scan ident l = .ok (none, l) := by
  induction l with
  | nil => rfl
  | cons x rest ih =>
    obtain ⟨fs, rfl, hm⟩ := h x (List.mem_cons_self _ _)
    have ih2 := ih (fun it hit => h it (List.mem_cons_of_mem _ hit))
    simp [delete_scan, ih2, hm]

theorem delete_scan_last (ident : String) (dpre dpost : List JVal)
    (dfs : List (String × JVal))
    (hdpre : ∀ it ∈ dpre, ∃ fs, it = JVal.jObj fs)
    (hdx : matchesIdOrTitle dfs ident = true)
    (hdpost : ∀ it ∈ dpost, ∃ fs, it = JVal.jObj fs ∧ matchesIdOrTitle fs ident = false) :
    delete_scan ident (dpre ++ JVal.jObj dfs :: dpost) =
      .ok (some (.jObj dfs), dpre.filter (fun it => !(itemMatches it ident)) ++ dpost) := by
  induction dpre with
  | nil =>
    have hpost := delete_scan_nomatch ident dpost hdpost
    simp [delete_scan, hpost, hdx]
  | cons p rest ih =>
    obtain ⟨fs, rfl⟩ := hdpre p (List.mem_cons_self _ _)
    have ih2 := ih (fun it hit => hdpre it (List.mem_cons_of_mem _ hit))
    cases hm : matchesIdOrTitle fs ident with
    | true => simp [delete_scan, ih2, hm, itemMatches]
    | false => simp [delete_scan, ih2, hm, itemMatches]

theorem add_core_two_fwd (gs gt : List JVal) (idx : Int) (u : JVal) (gp : List JVal)
    (hguard : ¬ (idx ≥ (gs.length : Int))) (hpop : pyPop gs idx = some (u, gp)) :
    add_to_pile_core (.jArr [pileItem "s" gs, pileItem "t" gt]) "s" "t" idx =
      .ok ([pileItem "s" gp, pileItem "t" (gt ++ [u])], gt.length + 1) := by
  have hscan : add_scan "s" "t"
      [JVal.jObj [("id", JVal.jStr "s"), ("gallery", JVal.jArr gs)],
       JVal.jObj [("id", JVal.jStr "t"), ("gallery", JVal.jArr gt)]] 0 none none =
      .ok (some (0, JVal.jObj [("id", JVal.jStr "s"), ("gallery", JVal.jArr gs)]),
           some (1, JVal.jObj [("id", JVal.jStr "t"), ("gallery", JVal.jArr gt)])) := rfl
  simp [add_to_pile_core, pyIter, hscan, pileItem, pyTruthy, objGet, objHas, objSet, objGetD,
    pyLen, hpop, hguard]

theorem add_core_two_bwd (gs gt : List JVal) (idx : Int) (u : JVal) (gp : List JVal)
    (hguard : ¬ (idx ≥ (gt.length : Int))) (hpop : pyPop gt idx = some (u, gp)) :
    add_to_pile_core (.jArr [pileItem "s" gs, pileItem "t" gt]) "t" "s" idx =
      .ok ([pileItem "s" (gs ++ [u]), pileItem "t" gp], gs.length + 1) := by
  have hscan : add_scan "t" "s"
      [JVal.jObj [("id", JVal.jStr "s"), ("gallery", JVal.jArr gs)],
       JVal.jObj [("id", JVal.jStr "t"), ("gallery", JVal.jArr gt)]] 0 none none =
      .ok (some (1, JVal.jObj [("id", JVal.jStr "t"), ("gallery", JVal.jArr gt)]),
           some (0, JVal.jObj [("id", JVal.jStr "s"), ("gallery", JVal.jArr gs)])) := rfl
  simp [add_to_pile_core, pyIter, hscan, pileItem, pyTruthy, objGet, objHas, objSet, objGetD,
    pyLen, hpop, hguard]

theorem set_append_two {α : Type} (A B : List α) (a : α) (C : List α) (b : α) :
    (A ++ (B ++ a :: C)).set (A.length + B.length) b = A ++ (B ++ b :: C) := by
  induction A with
  | nil => simpa using set_append_cons B a C b
  | cons x xs ih => simpa [Nat.succ_add] using ih

/-- Claim C6: for every category sequence containing the distinct items
`src = {id:"src", url:"u1", gallery:["u2","u3"]}` and
`tgt = {id:"tgt", gallery:["u0"]}` (in either order, with no other item
resolving to `"src"` or `"tgt"`), `move_to_pile` saves a sequence in
which tgt's gallery equals `["u0","u1","u2","u3"]` (source url appended
first, then the source gallery entries in order), the source item is
absent, the sequence length has decreased by exactly one, and the
returned `targetGalleryCount` equals the new gallery length. -/
theorem moveToPile_merges_and_removes_source (A B C items : List JVal)
    (hside : ∀ it ∈ A ++ B ++ C, ∃ fs, it = JVal.jObj fs ∧ matchesIdent fs "src" = false ∧
      matchesIdent fs "tgt" = false)
    (horder :
      items = A ++ (JVal.jObj [("id", .jStr "src"), ("url", .jStr "u1"),
          ("gallery", .jArr [.jStr "u2", .jStr "u3"])] :: (B ++
        (JVal.jObj [("id", .jStr "tgt"), ("gallery", .jArr [.jStr "u0"])] :: C))) ∨
      items = A ++ (JVal.jObj [("id", .jStr "tgt"), ("gallery", .jArr [.jStr "u0"])] :: (B ++
        (JVal.jObj [("id", .jStr "src"), ("url", .jStr "u1"),
          ("gallery", .jArr [.jStr "u2", .jStr "u3"])] :: C)))) :
    ∃ saved, move_to_pile_core (.jArr items) "src" "tgt" = .ok (saved, 4)
      ∧ JVal.jObj [("id", .jStr "tgt"),
          ("gallery", .jArr [.jStr "u0", .jStr "u1", .jStr "u2", .jStr "u3"])] ∈ saved
      ∧ galleryList [("id", .jStr "tgt"),
          ("gallery", .jArr [.jStr "u0", .jStr "u1", .jStr "u2", .jStr "u3"])] =
          [.jStr "u0", .jStr "u1", .jStr "u2", .jStr "u3"]
      ∧ JVal.jObj [("id", .jStr "src"), ("url", .jStr "u1"),
          ("gallery", .jArr [.jStr "u2", .jStr "u3"])] ∉ saved
      ∧ saved.length + 1 = items.length := by
  have hA : ∀ it ∈ A, ∃ fs, it = JVal.jObj fs ∧ matchesIdent fs "src" = false ∧
      matchesIdent fs "tgt" = false := fun it h => hside it (by simp [h])
  have hB : ∀ it ∈ B, ∃ fs, it = JVal.jObj fs ∧ matchesIdent fs "src" = false ∧
      matchesIdent fs "tgt" = false := fun it h => hside it (by simp [h])
  have hC : ∀ it ∈ C, ∃ fs, it = JVal.jObj fs ∧ matchesIdent fs "src" = false ∧
      matchesIdent fs "tgt" = false := fun it h => hside it (by simp [h])
  have hsrc_notin : ∀ D : List JVal, (∀ it ∈ D, ∃ fs, it = JVal.jObj fs ∧
      matchesIdent fs "src" = false ∧ matchesIdent fs "tgt" = false) →
      JVal.jObj [("id", .jStr "src"), ("url", .jStr "u1"),
        ("gallery", .jArr [.jStr "u2", .jStr "u3"])] ∉ D := by
    intro D hD hmem
    obtain ⟨fs, heq, hm, _⟩ := hD _ hmem
    injection heq with hfs
    rw [← hfs] at hm
    exact absurd hm (by decide)
  rcases horder with horder | horder
  · have hms : move_scan "src" "tgt"
        (A ++ (JVal.jObj [("id", .jStr "src"), ("url", .jStr "u1"),
            ("gallery", .jArr [.jStr "u2", .jStr "u3"])] :: (B ++
          (JVal.jObj [("id", .jStr "tgt"), ("gallery", .jArr [.jStr "u0"])] :: C))))
        none none [] =
        .ok (some (JVal.jObj [("id", .jStr "src"), ("url", .jStr "u1"),
            ("gallery", .jArr [.jStr "u2", .jStr "u3"])]),
          some ((A ++ B).length, JVal.jObj [("id", .jStr "tgt"), ("gallery", .jArr [.jStr "u0"])]),
          ((A ++ B) ++ [JVal.jObj [("id", .jStr "tgt"), ("gallery", .jArr [.jStr "u0"])]]) ++ C) := by
      rw [move_scan_skip "src" "tgt" A
        (JVal.jObj [("id", .jStr "src"), ("url", .jStr "u1"),
            ("gallery", .jArr [.jStr "u2", .jStr "u3"])] :: (B ++
          (JVal.jObj [("id", .jStr "tgt"), ("gallery", .jArr [.jStr "u0"])] :: C)))
        none none [] hA]
      rw [List.nil_append]
      rw [show move_scan "src" "tgt"
          (JVal.jObj [("id", .jStr "src"), ("url", .jStr "u1"),
              ("gallery", .jArr [.jStr "u2", .jStr "u3"])] :: (B ++
            (JVal.jObj [("id", .jStr "tgt"), ("gallery", .jArr [.jStr "u0"])] :: C)))
          none none A =
        move_scan "src" "tgt"
          (B ++ (JVal.jObj [("id", .jStr "tgt"), ("gallery", .jArr [.jStr "u0"])] :: C))
          (some (JVal.jObj [("id", .jStr "src"), ("url", .jStr "u1"),
            ("gallery", .jArr [.jStr "u2", .jStr "u3"])])) none A from rfl]
      rw [move_scan_skip "src" "tgt" B
        (JVal.jObj [("id", .jStr "tgt"), ("gallery", .jArr [.jStr "u0"])] :: C)
        (some (JVal.jObj [("id", .jStr "src"), ("url", .jStr "u1"),
          ("gallery", .jArr [.jStr "u2", .jStr "u3"])])) none A hB]
      rw [show move_scan "src" "tgt"
          (JVal.jObj [("id", .jStr "tgt"), ("gallery", .jArr [.jStr "u0"])] :: C)
          (some (JVal.jObj [("id", .jStr "src"), ("url", .jStr "u1"),
            ("gallery", .jArr [.jStr "u2", .jStr "u3"])])) none (A ++ B) =
        move_scan "src" "tgt" C
          (some (JVal.jObj [("id", .jStr "src"), ("url", .jStr "u1"),
            ("gallery", .jArr [.jStr "u2", .jStr "u3"])]))
          (some ((A ++ B).length, JVal.jObj [("id", .jStr "tgt"), ("gallery", .jArr [.jStr "u0"])]))
          ((A ++ B) ++ [JVal.jObj [("id", .jStr "tgt"), ("gallery", .jArr [.jStr "u0"])]]) from rfl]
      have := move_scan_skip "src" "tgt" C []
        (some (JVal.jObj [("id", .jStr "src"), ("url", .jStr "u1"),
          ("gallery", .jArr [.jStr "u2", .jStr "u3"])]))
        (some ((A ++ B).length, JVal.jObj [("id", .jStr "tgt"), ("gallery", .jArr [.jStr "u0"])]))
        ((A ++ B) ++ [JVal.jObj [("id", .jStr "tgt"), ("gallery", .jArr [.jStr "u0"])]]) hC
      rw [List.append_nil] at this
      rw [this]
      rfl
    refine ⟨(A ++ B) ++ JVal.jObj [("id", .jStr "tgt"),
        ("gallery", .jArr [.jStr "u0", .jStr "u1", .jStr "u2", .jStr "u3"])] :: C,
      ?_, by simp, rfl, ?_, ?_⟩
    · rw [horder]
      simp only [move_to_pile_core, pyIter, hms]
      simp [pyTruthy, objGet, objHas, objGetD, objSet, pyIter, set_append_two]
    · intro hmem
      rcases List.mem_append.mp hmem with h1 | h1
      · exact hsrc_notin (A ++ B) (fun it h => hside it (by
          rcases List.mem_append.mp h with h2 | h2 <;> simp [h2])) h1
      · rcases List.mem_cons.mp h1 with h2 | h2
        · simp at h2
        · exact hsrc_notin C hC h2
    · rw [horder]
      simp
      omega
  · have hms : move_scan "src" "tgt"
        (A ++ (JVal.jObj [("id", .jStr "tgt"), ("gallery", .jArr [.jStr "u0"])] :: (B ++
          (JVal.jObj [("id", .jStr "src"), ("url", .jStr "u1"),
            ("gallery", .jArr [.jStr "u2", .jStr "u3"])] :: C))))
        none none [] =
        .ok (some (JVal.jObj [("id", .jStr "src"), ("url", .jStr "u1"),
            ("gallery", .jArr [.jStr "u2", .jStr "u3"])]),
          some (A.length, JVal.jObj [("id", .jStr "tgt"), ("gallery", .jArr [.jStr "u0"])]),
          ((A ++ [JVal.jObj [("id", .jStr "tgt"), ("gallery", .jArr [.jStr "u0"])]]) ++ B) ++ C) := by
      rw [move_scan_skip "src" "tgt" A
        (JVal.jObj [("id", .jStr "tgt"), ("gallery", .jArr [.jStr "u0"])] :: (B ++
          (JVal.jObj [("id", .jStr "src"), ("url", .jStr "u1"),
            ("gallery", .jArr [.jStr "u2", .jStr "u3"])] :: C)))
        none none [] hA]
      rw [List.nil_append]
      rw [show move_scan "src" "tgt"
          (JVal.jObj [("id", .jStr "tgt"), ("gallery", .jArr [.jStr "u0"])] :: (B ++
            (JVal.jObj [("id", .jStr "src"), ("url", .jStr "u1"),
              ("gallery", .jArr [.jStr "u2", .jStr "u3"])] :: C)))
          none none A =
        move_scan "src" "tgt"
          (B ++ (JVal.jObj [("id", .jStr "src"), ("url", .jStr "u1"),
            ("gallery", .jArr [.jStr "u2", .jStr "u3"])] :: C))
          none
          (some (A.length, JVal.jObj [("id", .jStr "tgt"), ("gallery", .jArr [.jStr "u0"])]))
          (A ++ [JVal.jObj [("id", .jStr "tgt"), ("gallery", .jArr [.jStr "u0"])]]) from rfl]
      rw [move_scan_skip "src" "tgt" B
        (JVal.jObj [("id", .jStr "src"), ("url", .jStr "u1"),
          ("gallery", .jArr [.jStr "u2", .jStr "u3"])] :: C)
        none
        (some (A.length, JVal.jObj [("id", .jStr "tgt"), ("gallery", .jArr [.jStr "u0"])]))
        (A ++ [JVal.jObj [("id", .jStr "tgt"), ("gallery", .jArr [.jStr "u0"])]]) hB]
      rw [show move_scan "src" "tgt"
          (JVal.jObj [("id", .jStr "src"), ("url", .jStr "u1"),
            ("gallery", .jArr [.jStr "u2", .jStr "u3"])] :: C)
          none
          (some (A.length, JVal.jObj [("id", .jStr "tgt"), ("gallery", .jArr [.jStr "u0"])]))
          ((A ++ [JVal.jObj [("id", .jStr "tgt"), ("gallery", .jArr [.jStr "u0"])]]) ++ B) =
        move_scan "src" "tgt" C
          (some (JVal.jObj [("id", .jStr "src"), ("url", .jStr "u1"),
            ("gallery", .jArr [.jStr "u2", .jStr "u3"])]))
          (some (A.length, JVal.jObj [("id", .jStr "tgt"), ("gallery", .jArr [.jStr "u0"])]))
          ((A ++ [JVal.jObj [("id", .jStr "tgt"), ("gallery", .jArr [.jStr "u0"])]]) ++ B) from rfl]
      have := move_scan_skip "src" "tgt" C []
        (some (JVal.jObj [("id", .jStr "src"), ("url", .jStr "u1"),
          ("gallery", .jArr [.jStr "u2", .jStr "u3"])]))
        (some (A.length, JVal.jObj [("id", .jStr "tgt"), ("gallery", .jArr [.jStr "u0"])]))
        ((A ++ [JVal.jObj [("id", .jStr "tgt"), ("gallery", .jArr [.jStr "u0"])]]) ++ B) hC
      rw [List.append_nil] at this
      rw [this]
      rfl
    refine ⟨A ++ JVal.jObj [("id", .jStr "tgt"),
        ("gallery", .jArr [.jStr "u0", .jStr "u1", .jStr "u2", .jStr "u3"])] :: (B ++ C),
      ?_, by simp, rfl, ?_, ?_⟩
    · rw [horder]
      simp only [move_to_pile_core, pyIter, hms]
      simp [pyTruthy, objGet, objHas, objGetD, objSet, pyIter, set_append_cons]
    · intro hmem
      rcases List.mem_append.mp hmem with h1 | h1
      · exact hsrc_notin A hA h1
      · rcases List.mem_cons.mp h1 with h2 | h2
        · simp at h2
        · exact hsrc_notin (B ++ C) (fun it h => hside it (by
            rcases List.mem_append.mp h with h3 | h3 <;> simp [h3])) h2
    · rw [horder]
      simp
      omega

/-- Claim C10: for every category whose items are all JSON objects and
every nonempty identifier `i`, `move_to_pile` with
`source_id = target_id = i` returns NotFound (the single matched item is
consumed as source, so no target is ever recorded) and no write occurs
(the handler returns before the dump, leaving the file unchanged); the
self-move never self-merges or deletes the item. -/
theorem moveToPile_self_move_notfound (fd : JVal) (items : List JVal) (i : String)
    (hfd : fd = .jArr items) (hi : i ≠ "")
    (hobj : ∀ it ∈ items, ∃ fs, it = JVal.jObj fs) :
    move_to_pile (.parsed fd) (some i) (some i) = .error .notFound := by
  subst hfd
  obtain ⟨s2, rem2, hscan⟩ := move_scan_self i items hobj none []
  have hine : (i == "") = false := by
    simpa using hi
  simp only [move_to_pile, hine, Bool.or_self, if_false, update_content_load,
    move_to_pile_core, pyIter, hscan]
  rfl

theorem moveToPile_self_move_notfound_witness :
    move_to_pile (.parsed (.jArr [.jObj [("id", .jStr "a")]])) (some "a") (some "a") =
      .error .notFound := by
  exact moveToPile_self_move_notfound _ [.jObj [("id", .jStr "a")]] "a" rfl (by decide)
    (by intro it h; exact ⟨[("id", .jStr "a")], by simpa using h⟩)

/-- Claim C7: for every category sequence (of JSON objects) and every
identifier that resolves to no item, `update_content` returns NotFound;
in this model a `.ok` result is the only way a write happens, so the
error result means the handler returned before `json.dump` and the
on-disk file is byte-for-byte unchanged. -/
theorem update_fields_notfound_no_write (items : List JVal) (item_id : String)
    (updates : List (String × JVal))
    (h : ∀ it ∈ items, ∃ fs, it = JVal.jObj fs ∧ matchesIdOrTitle fs item_id = false) :
    update_content (.parsed (.jArr items)) item_id updates = .error .notFound := by
  have hscan := update_scan_none item_id updates items h
  simp only [update_content, update_content_load, update_content_core, pyIter, hscan]

theorem update_fields_notfound_no_write_witness :
    update_content (.parsed (.jArr [.jObj [("id", .jStr "b")]])) "a" [("k", .jNull)] =
      .error .notFound := by
  exact update_fields_notfound_no_write [.jObj [("id", .jStr "b")]] "a" [("k", .jNull)]
    (by
      intro it h
      refine ⟨[("id", .jStr "b")], by simpa using h, by decide⟩)

/-- Claim C1, counterexample: with an item whose English title is `"a"`
placed before the item whose id is `"a"`, the lookup used by
`get_single_item` (and `update_content`, which shares the
break-at-first-match scan) returns the earlier title-matching item, not
the id-matching item X — so the claimed list-wide id-over-title
precedence fails. -/
theorem lookup_title_shadows_id_counterexample :
    get_single_item (.parsed (.jArr [.jObj [("id", .jStr "b"), ("title", .jStr "a")],
        .jObj [("id", .jStr "a")]])) "a" =
      .ok (.jObj [("id", .jStr "b"), ("title", .jStr "a")])
    ∧ get_single_item (.parsed (.jArr [.jObj [("id", .jStr "b"), ("title", .jStr "a")],
        .jObj [("id", .jStr "a")]])) "a" ≠
      .ok (.jObj [("id", .jStr "a")]) := by
  refine ⟨rfl, ?_⟩
  intro h
  rw [show get_single_item (.parsed (.jArr [.jObj [("id", .jStr "b"), ("title", .jStr "a")],
      .jObj [("id", .jStr "a")]])) "a" =
    .ok (.jObj [("id", .jStr "b"), ("title", .jStr "a")]) from rfl] at h
  simp at h

/-- Claim C1, amended: `update_content` and `get_single_item` return the
first item in scan order whose id or English title equals the
identifier — the id check precedes the title check only within a single
item, so an earlier item matching only by title wins over a later item
whose id matches; `delete_item` scans without break, so it removes
every matching item from the saved sequence and the item it reports
(whose URLs it cloud-deletes) is the last match. -/
theorem lookup_first_match_spec (a : String) (updates : List (String × JVal))
    (pre post dpre dpost : List JVal) (xfs dfs : List (String × JVal))
    (hpre : ∀ it ∈ pre, ∃ fs, it = JVal.jObj fs ∧ matchesIdOrTitle fs a = false)
    (hx : matchesIdOrTitle xfs a = true)
    (hdpre : ∀ it ∈ dpre, ∃ fs, it = JVal.jObj fs)
    (hdx : matchesIdOrTitle dfs a = true)
    (hdpost : ∀ it ∈ dpost, ∃ fs, it = JVal.jObj fs ∧ matchesIdOrTitle fs a = false) :
    get_single_item (.parsed (.jArr (pre ++ JVal.jObj xfs :: post))) a = .ok (.jObj xfs)
    ∧ update_content (.parsed (.jArr (pre ++ JVal.jObj xfs :: post))) a updates =
        .ok (pre ++ JVal.jObj (updates.foldl (fun acc p => objSet acc p.1 p.2) xfs) :: post)
    ∧ delete_scan a (dpre ++ JVal.jObj dfs :: dpost) =
        .ok (some (.jObj dfs), dpre.filter (fun it => !(itemMatches it a)) ++ dpost)
    ∧ delete_item (.parsed (.jArr (dpre ++ JVal.jObj dfs :: dpost))) a =
        .ok (dpre.filter (fun it => !(itemMatches it a)) ++ dpost) := by
  have hdel := delete_scan_last a dpre dpost dfs hdpre hdx hdpost
  have hdfs : pyTruthy (JVal.jObj dfs) = true := by
    cases dfs with
    | nil => simp [matchesIdOrTitle, eqStrVal, titleVal, objGet] at hdx
    | cons hd tl => rfl
  refine ⟨?_, ?_, hdel, ?_⟩
  · have hskip := find_first_match_skip a pre (JVal.jObj xfs :: post) hpre
    simp only [get_single_item, json_module_load, get_single_item_core, pyIter, hskip,
      find_first_match, hx, if_true]
  · have hupd := update_scan_found a updates pre post xfs hpre hx
    simp only [update_content, update_content_load, update_content_core, pyIter, hupd]
  · simp only [delete_item, delete_item_load, delete_item_core, pyIter, hdel, hdfs, if_true]

theorem lookup_first_match_spec_witness :
    get_single_item (.parsed (.jArr [.jObj [("id", .jStr "b")], .jObj [("id", .jStr "a")]])) "a" =
      .ok (.jObj [("id", .jStr "a")])
    ∧ update_content (.parsed (.jArr [.jObj [("id", .jStr "b")], .jObj [("id", .jStr "a")]]))
        "a" [("k", .jNull)] =
      .ok [.jObj [("id", .jStr "b")], .jObj [("id", .jStr "a"), ("k", .jNull)]]
    ∧ delete_scan "a" [.jObj [("id", .jStr "b"), ("title", .jStr "a")],
        .jObj [("id", .jStr "a")]] =
      .ok (some (.jObj [("id", .jStr "a")]), [])
    ∧ delete_item (.parsed (.jArr [.jObj [("id", .jStr "b"), ("title", .jStr "a")],
        .jObj [("id", .jStr "a")]])) "a" = .ok [] := by
  have h := lookup_first_match_spec "a" [("k", .jNull)]
    [.jObj [("id", .jStr "b")]] [] [.jObj [("id", .jStr "b"), ("title", .jStr "a")]] []
    [("id", .jStr "a")] [("id", .jStr "a")]
    (by
      intro it hmem
      refine ⟨[("id", .jStr "b")], by simpa using hmem, by decide⟩)
    (by decide)
    (by
      intro it hmem
      exact ⟨[("id", .jStr "b"), ("title", .jStr "a")], by simpa using hmem⟩)
    (by decide)
    (by simp)
  refine ⟨?_, ?_, ?_, ?_⟩
  · simpa using h.1
  · simpa using h.2.1
  · simpa using h.2.2.1
  · simpa using h.2.2.2

/-- Claim C3, counterexample: a category file holding
`{"items": [X]}` behaves differently from a bare `[X]` on the mutation
path: `update_content` iterates the dict's keys and raises
`AttributeError` (HTTP 500) on the wrapped form while succeeding on the
bare array. -/
theorem items_wrapped_update_counterexample :
    update_content (.parsed (.jObj [("items", .jArr [.jObj [("id", .jStr "a")]])])) "a" [] =
      .error .attrError
    ∧ update_content (.parsed (.jArr [.jObj [("id", .jStr "a")]])) "a" [] =
      .ok [.jObj [("id", .jStr "a")]] := ⟨rfl, rfl⟩

/-- Claim C3, amended: the `{"items": [...]}` / bare-array read
equivalence holds only on the all-categories listing path
(`get_all_content`); the single-category listing returns the raw
document unnormalized, and the mutation paths treat the document as a
bare array and fail with `AttributeError` on an items-wrapped object. -/
theorem items_wrapped_equiv_get_all_only (xs : List JVal) (item_id : String)
    (updates : List (String × JVal)) :
    get_all_content_normalize (.jObj [("items", .jArr xs)]) =
      get_all_content_normalize (.jArr xs)
    ∧ update_content (.parsed (.jObj [("items", .jArr xs)])) item_id updates =
      .error .attrError
    ∧ get_content (.parsed (.jObj [("items", .jArr xs)])) =
      .ok (.jObj [("items", .jArr xs)]) := by
  refine ⟨rfl, ?_, rfl⟩
  simp [update_content, update_content_load, update_content_core, pyIter, update_scan]

/-- Claim C4, counterexample: on a malformed (non-empty, unparseable)
category file, `delete_item` does not treat the file as an empty
sequence (which would yield NotFound, as it does on a whitespace-only
file) — it returns the explicit invalid-JSON error; `update_content`
surfaces the parse error as a 500. -/
theorem malformed_delete_counterexample :
    delete_item .malformed "x" = .error .invalidJson
    ∧ delete_item .empty "x" = .error .notFound
    ∧ update_content .malformed "x" [] = .error .parseError
    ∧ ApiErr.invalidJson ≠ ApiErr.notFound := by
  exact ⟨rfl, rfl, rfl, by decide⟩

/-- Claim C4, amended: only the upload append path treats malformed JSON
as an empty sequence and proceeds; `delete_item` returns an explicit
invalid-JSON error, `update_content`, `move_to_pile`,
`extract_from_pile` and `add_to_pile` surface the parse error, and the
read-only listing endpoint `get_content` also returns a failure (that
part of the claim holds). -/
theorem malformed_load_behaviour (entry : List (String × JVal)) (item_id : String)
    (updates : List (String × JVal)) (sid tid : String) (hs : sid ≠ "") (ht : tid ≠ "")
    (cfg : ExtractCfg) (iu : JVal) (idx : Int) (ct : Option String) (cd : String) :
    upload_and_save .malformed entry = .ok [.jObj entry]
    ∧ delete_item .malformed item_id = .error .invalidJson
    ∧ update_content .malformed item_id updates = .error .parseError
    ∧ move_to_pile .malformed (some sid) (some tid) = .error .parseError
    ∧ extract_from_pile cfg .malformed (some sid) (some iu) (some idx) ct cd =
        .error .parseError
    ∧ add_to_pile .malformed (some sid) (some tid) (some iu) (some idx) = .error .parseError
    ∧ get_content .malformed = .error .parseError := by
  have hs2 : (sid == "") = false := by simpa using hs
  have ht2 : (tid == "") = false := by simpa using ht
  refine ⟨rfl, rfl, rfl, ?_, ?_, ?_, rfl⟩
  · simp [move_to_pile, hs2, ht2, update_content_load]
  · simp [extract_from_pile, hs2, json_module_load]
  · simp [add_to_pile, hs2, ht2, json_module_load]

theorem malformed_load_behaviour_witness :
    upload_and_save .malformed [] = .ok [.jObj []]
    ∧ delete_item .malformed "x" = .error .invalidJson
    ∧ update_content .malformed "x" [] = .error .parseError
    ∧ move_to_pile .malformed (some "s") (some "t") = .error .parseError
    ∧ extract_from_pile ⟨"art", ["en"], 0, "d"⟩ .malformed (some "s") (some .jNull) (some 0)
        none "" = .error .parseError
    ∧ add_to_pile .malformed (some "s") (some "t") (some .jNull) (some 0) = .error .parseError
    ∧ get_content .malformed = .error .parseError := by
  exact malformed_load_behaviour [] "x" [] "s" "t" (by decide) (by decide)
    ⟨"art", ["en"], 0, "d"⟩ .jNull 0 none ""


theorem objDel_keys_ne (ms : List (String × JVal)) (u k : String)
    (hk : k ∈ (objDel ms u).map Prod.fst) : k ∈ ms.map Prod.fst ∧ k ≠ u := by
  simp only [objDel, List.mem_map] at hk
  obtain ⟨p, hp, rfl⟩ := hk
  have hmem := List.mem_of_mem_filter hp
  have hne := List.of_mem_filter hp
  simp only [Bool.not_eq_true'] at hne
  constructor
  · exact List.mem_map.mpr ⟨p, hmem, rfl⟩
  · intro he
    rw [he] at hne
    simp at hne

theorem objHas_false_keys_ne (ms : List (String × JVal)) (u k : String)
    (hhas : objHas ms u = false) (hk : k ∈ ms.map Prod.fst) : k ≠ u := by
  intro he
  subst he
  obtain ⟨p, hp, rfl⟩ := List.mem_map.mp hk
  have : objHas ms p.1 = true := by
    simp only [objHas, List.any_eq_true]
    exact ⟨p, hp, by simp⟩
  rw [this] at hhas
  cases hhas


theorem seqInv_extract_result (gs : List JVal) (j : Nat) (ms2 : List (String × JVal))
    (x1 x2 x3 x4 x5 x6 : JVal)
    (hsub : ∀ k ∈ ms2.map Prod.fst, JVal.jStr k ∈ gs.eraseIdx j) :
    seqInv [JVal.jObj [("id", JVal.jStr "s"), ("gallery", JVal.jArr (gs.eraseIdx j)),
        ("galleryMetadata", JVal.jObj ms2)],
      JVal.jObj [("id", x1), ("title", x2), ("url", x3), ("date", x4), ("created", x5),
        ("description", x6)]] = true := by
  simp [seqInv, itemInv, metaKeys, galleryList, objGet, List.all_eq_true]
  intro k v hkv
  exact (galleryHasUrl_iff _ k).mpr (hsub k (List.mem_map.mpr ⟨(k, v), hkv, rfl⟩))

/-- Claim C2, amended: `extract_from_pile` deletes the extracted URL's
`galleryMetadata` entry along with the gallery entry, preserving the
keys-subset-of-gallery invariant for the mutated source item and the
appended new item (shown for a source item with id, gallery and
metadata fields, URL-string gallery entries as in the spec data model,
any metadata mapping and any in-range index); on a gallery whose popped
entry is a JSON array or object, the membership test raises `TypeError`
and nothing is written; `add_to_pile` does not maintain the invariant
(see the counterexample). -/
theorem extractFromPile_preserves_metadata_invariant (cfg : ExtractCfg) (gs : List JVal)
    (ms : List (String × JVal)) (i : Nat) (ct : Option String) (cd : String)
    (hi : i < gs.length)
    (hstr : ∀ v ∈ gs, ∃ u, v = JVal.jStr u)
    (hinv : itemInv (.jObj [("id", .jStr "s"), ("gallery", .jArr gs),
      ("galleryMetadata", .jObj ms)]) = true) :
    ∃ saved nt nid,
      extract_from_pile_core cfg (.jArr [.jObj [("id", .jStr "s"), ("gallery", .jArr gs),
        ("galleryMetadata", .jObj ms)]]) "s" (i : Int) ct cd = .ok (saved, nt, nid)
      ∧ seqInv saved = true := by
  have h2 : ((i : Int)).toNat < gs.length := by simpa using hi
  have hp := pyPop_int_nonneg gs (i : Int) (by omega) (by exact_mod_cast hi) h2
  have hguard : ¬ ((i : Int) ≥ (gs.length : Int)) := by omega
  have hkeys : ∀ k ∈ ms.map Prod.fst, JVal.jStr k ∈ gs := by
    intro k hk
    simp [itemInv, metaKeys, galleryList, objGet, List.all_eq_true] at hinv
    obtain ⟨v, hv⟩ : ∃ x, (k, x) ∈ ms := by simpa using hk
    exact (galleryHasUrl_iff gs k).mp (hinv k v hv)
  have hscan : extract_scan "s" [JVal.jObj [("id", .jStr "s"), ("gallery", .jArr gs),
      ("galleryMetadata", .jObj ms)]] 0 = .ok (some (0, [("id", .jStr "s"),
      ("gallery", .jArr gs), ("galleryMetadata", .jObj ms)])) := rfl
  simp only [extract_from_pile_core, pyIter, hscan, hp]
  rw [if_neg (by simp [pyTruthy])]
  rw [show objGet [("id", JVal.jStr "s"), ("gallery", JVal.jArr gs),
    ("galleryMetadata", JVal.jObj ms)] "gallery" = some (.jArr gs) from rfl]
  simp only [pyLen]
  rw [if_neg hguard]
  simp only [hp]
  rw [show objSet [("id", JVal.jStr "s"), ("gallery", JVal.jArr gs),
      ("galleryMetadata", JVal.jObj ms)] "gallery" (JVal.jArr (gs.eraseIdx (i : Int).toNat)) =
    [("id", JVal.jStr "s"), ("gallery", JVal.jArr (gs.eraseIdx (i : Int).toNat)),
      ("galleryMetadata", JVal.jObj ms)] from rfl]
  have hne_of : ∀ (k : String), k ∈ ms.map Prod.fst → JVal.jStr k ≠ gs.get ⟨(i : Int).toNat, h2⟩ →
      JVal.jStr k ∈ gs.eraseIdx (i : Int).toNat := by
    intro k hk hne
    exact mem_eraseIdx_of_ne gs (i : Int).toNat h2 _ (hkeys k hk) hne
  obtain ⟨u, hu⟩ := hstr (gs.get ⟨(i : Int).toNat, h2⟩) (List.get_mem gs _ _)
  rw [hu]
  rw [show delete_metadata_entry [("id", JVal.jStr "s"),
      ("gallery", JVal.jArr (gs.eraseIdx (i : Int).toNat)),
      ("galleryMetadata", JVal.jObj ms)] (JVal.jStr u) =
    (if objHas ms u then
        .ok [("id", JVal.jStr "s"), ("gallery", JVal.jArr (gs.eraseIdx (i : Int).toNat)),
          ("galleryMetadata", JVal.jObj (objDel ms u))]
      else
        .ok [("id", JVal.jStr "s"), ("gallery", JVal.jArr (gs.eraseIdx (i : Int).toNat)),
          ("galleryMetadata", JVal.jObj ms)]) from rfl]
  cases hhad : objHas ms u with
  | true =>
    simp only [hhad]
    refine ⟨_, _, _, rfl, ?_⟩
    apply seqInv_extract_result
    intro k hk
    obtain ⟨hkms, hkne⟩ := objDel_keys_ne ms u k hk
    refine hne_of k hkms ?_
    rw [hu]
    intro he
    injection he with he2
    exact hkne he2
  | false =>
    refine ⟨_, _, _, rfl, ?_⟩
    apply seqInv_extract_result
    intro k hk
    refine hne_of k hk ?_
    rw [hu]
    intro he
    injection he with he2
    exact objHas_false_keys_ne ms u k hhad hk he2

/-- Claim C2, counterexample: `add_to_pile` pops a URL from the source
gallery without touching `galleryMetadata`, so moving the only gallery
image of an item that has metadata for it leaves a stale metadata key:
the saved sequence violates the keys-subset-of-gallery invariant. -/
theorem addToPile_breaks_metadata_invariant :
    seqInv [.jObj [("id", .jStr "s"), ("gallery", .jArr [.jStr "u"]),
        ("galleryMetadata", .jObj [("u", .jNull)])], .jObj [("id", .jStr "t")]] = true
    ∧ add_to_pile_core (.jArr [.jObj [("id", .jStr "s"), ("gallery", .jArr [.jStr "u"]),
        ("galleryMetadata", .jObj [("u", .jNull)])], .jObj [("id", .jStr "t")]]) "s" "t" 0 =
      .ok ([.jObj [("id", .jStr "s"), ("gallery", .jArr []),
          ("galleryMetadata", .jObj [("u", .jNull)])],
        .jObj [("id", .jStr "t"), ("gallery", .jArr [.jStr "u"])]], 1)
    ∧ seqInv [.jObj [("id", .jStr "s"), ("gallery", .jArr []),
        ("galleryMetadata", .jObj [("u", .jNull)])],
        .jObj [("id", .jStr "t"), ("gallery", .jArr [.jStr "u"])]] = false :=
  ⟨rfl, rfl, rfl⟩

/-- Witness for the invariant-preservation theorem at a concrete input. -/
theorem extractFromPile_preserves_metadata_invariant_witness :
    (0 : Nat) < 1
    ∧ (∀ v ∈ [JVal.jStr "u"], ∃ u2, v = JVal.jStr u2)
    ∧ itemInv (.jObj [("id", .jStr "s"), ("gallery", .jArr [.jStr "u"]),
        ("galleryMetadata", .jObj [("u", .jNull)])]) = true
    ∧ ∃ saved nt nid,
        extract_from_pile_core ⟨"art", ["en"], 0, "d"⟩ (.jArr [.jObj [("id", .jStr "s"),
          ("gallery", .jArr [.jStr "u"]), ("galleryMetadata", .jObj [("u", .jNull)])]]) "s" 0
          none "" = .ok (saved, nt, nid)
        ∧ seqInv saved = true := by
  refine ⟨by decide, fun v hv => ⟨"u", by simpa using hv⟩, rfl, ?_⟩
  exact extractFromPile_preserves_metadata_invariant ⟨"art", ["en"], 0, "d"⟩ [.jStr "u"]
    [("u", .jNull)] 0 none "" (by decide) (fun v hv => ⟨"u", by simpa using hv⟩) rfl

/-- Witness for the move-to-pile theorem at the spec's two-item example. -/
theorem moveToPile_merges_and_removes_source_witness :
    ∃ saved, move_to_pile_core (.jArr [JVal.jObj [("id", .jStr "src"), ("url", .jStr "u1"),
        ("gallery", .jArr [.jStr "u2", .jStr "u3"])],
        JVal.jObj [("id", .jStr "tgt"), ("gallery", .jArr [.jStr "u0"])]]) "src" "tgt" =
      .ok (saved, 4)
      ∧ JVal.jObj [("id", .jStr "tgt"),
          ("gallery", .jArr [.jStr "u0", .jStr "u1", .jStr "u2", .jStr "u3"])] ∈ saved
      ∧ galleryList [("id", .jStr "tgt"),
          ("gallery", .jArr [.jStr "u0", .jStr "u1", .jStr "u2", .jStr "u3"])] =
          [.jStr "u0", .jStr "u1", .jStr "u2", .jStr "u3"]
      ∧ JVal.jObj [("id", .jStr "src"), ("url", .jStr "u1"),
          ("gallery", .jArr [.jStr "u2", .jStr "u3"])] ∉ saved
      ∧ saved.length + 1 = 2 := by
  exact moveToPile_merges_and_removes_source [] [] [] _ (by simp) (Or.inl rfl)

/-- Claim C9: for two distinct pile items with galleries, `add_to_pile`
moving the image at index `i` from source to target, followed by
`add_to_pile` moving that image back from its new position (the last
slot of the target gallery), restores the target gallery exactly and
the source gallery up to a permutation (the moved image is re-appended
at the end), so both galleries' multisets of URLs are restored. -/
theorem addToPile_roundtrip_restores_galleries (gs gt : List JVal) (i : Nat)
    (hi : i < gs.length) :
    add_to_pile_core (.jArr [pileItem "s" gs, pileItem "t" gt]) "s" "t" (i : Int) =
      .ok ([pileItem "s" (gs.eraseIdx i), pileItem "t" (gt ++ [gs.get ⟨i, hi⟩])], gt.length + 1)
    ∧ add_to_pile_core (.jArr [pileItem "s" (gs.eraseIdx i),
        pileItem "t" (gt ++ [gs.get ⟨i, hi⟩])]) "t" "s" (gt.length : Int) =
      .ok ([pileItem "s" (gs.eraseIdx i ++ [gs.get ⟨i, hi⟩]), pileItem "t" gt],
        (gs.eraseIdx i).length + 1)
    ∧ (↑(gs.eraseIdx i ++ [gs.get ⟨i, hi⟩]) : Multiset JVal) = (↑gs : Multiset JVal) := by
  refine ⟨?_, ?_, ?_⟩
  · apply add_core_two_fwd
    · omega
    · have h2 : ((i : Int)).toNat < gs.length := by simpa using hi
      have := pyPop_int_nonneg gs (i : Int) (by omega) (by exact_mod_cast hi) h2
      simpa using this
  · apply add_core_two_bwd
    · simp only [List.length_append, List.length_singleton]
      omega
    · have h2 : gt.length < (gt ++ [gs.get ⟨i, hi⟩]).length := by simp
      have h3 : ((gt.length : Int)).toNat < (gt ++ [gs.get ⟨i, hi⟩]).length := by
        simpa using h2
      have h4 := pyPop_int_nonneg (gt ++ [gs.get ⟨i, hi⟩]) (gt.length : Int) (by omega)
        (by exact_mod_cast h2) h3
      simpa [concat_get_last, concat_eraseIdx_last] using h4
  · rw [Multiset.coe_eq_coe]
    exact eraseIdx_concat_get_perm gs i hi

/-- Witness for the round-trip theorem at a concrete input. -/
theorem addToPile_roundtrip_restores_galleries_witness :
    (0 : Nat) < 1
    ∧ add_to_pile_core (.jArr [pileItem "s" [.jStr "a"], pileItem "t" []]) "s" "t" 0 =
        .ok ([pileItem "s" [], pileItem "t" [.jStr "a"]], 1)
    ∧ add_to_pile_core (.jArr [pileItem "s" [], pileItem "t" [.jStr "a"]]) "t" "s" 0 =
        .ok ([pileItem "s" [.jStr "a"], pileItem "t" []], 1)
    ∧ (↑[JVal.jStr "a"] : Multiset JVal) = (↑[JVal.jStr "a"] : Multiset JVal) := by
  have h := addToPile_roundtrip_restores_galleries [JVal.jStr "a"] [] 0 (by decide)
  refine ⟨by decide, ?_, ?_, ?_⟩
  · simpa using h.1
  · simpa using h.2.1
  · simpa using h.2.2

/-- Evaluation helper: a successful pop makes `extract_from_pile` succeed. -/
theorem extract_pile_isOk (cfg : ExtractCfg) (gs : List JVal) (idx : Int) (cd : String)
    (u : JVal) (gp : List JVal)
    (hguard : ¬ (idx ≥ (gs.length : Int))) (hpop : pyPop gs idx = some (u, gp)) :
    exceptIsOk (extract_from_pile_core cfg (.jArr [pileItem "s" gs]) "s" idx none cd) = true := by
  have hscan : extract_scan "s" [JVal.jObj [("id", .jStr "s"), ("gallery", .jArr gs)]] 0 =
      .ok (some (0, [("id", .jStr "s"), ("gallery", .jArr gs)])) := rfl
  simp only [pileItem, extract_from_pile_core, pyIter, hscan]
  rw [if_neg (by simp [pyTruthy])]
  rw [show objGet [("id", JVal.jStr "s"), ("gallery", JVal.jArr gs)] "gallery" =
    some (.jArr gs) from rfl]
  simp only [pyLen]
  rw [if_neg hguard, hpop]
  cases u <;> rfl

/-- Claim C5, counterexample: a negative gallery index is not rejected:
the guard only checks `image_index >= len(gallery)`, so `add_to_pile`
with index `-1` succeeds, popping the last gallery entry (Python
negative indexing) and writing the file — not InvalidIndex and not
"no write". -/
theorem negative_index_accepted_counterexample :
    add_to_pile_core (.jArr [.jObj [("id", .jStr "s"),
        ("gallery", .jArr [.jStr "u1", .jStr "u2"])], .jObj [("id", .jStr "t")]]) "s" "t" (-1) =
      .ok ([.jObj [("id", .jStr "s"), ("gallery", .jArr [.jStr "u1"])],
        .jObj [("id", .jStr "t"), ("gallery", .jArr [.jStr "u2"])]], 1) := rfl

/-- Claim C5, amended: `extract_from_pile` and `add_to_pile` fail with
InvalidIndex (writing nothing) exactly when the gallery is absent or the
index is `>= len(gallery)`; a missing index fails with the
required-parameters error, not InvalidIndex; a negative index within
`[-len, -1]` is accepted and pops from the end; a negative index below
`-len` raises IndexError; in-range indices never yield InvalidIndex. -/
theorem gallery_index_guard_spec (gs gt : List JVal) (idx : Int) (cfg : ExtractCfg)
    (cd : String) :
    ((idx ≥ (gs.length : Int)) →
        add_to_pile_core (.jArr [pileItem "s" gs, pileItem "t" gt]) "s" "t" idx =
          .error .invalidIndex
        ∧ extract_from_pile_core cfg (.jArr [pileItem "s" gs]) "s" idx none cd =
          .error .invalidIndex)
    ∧ add_to_pile (.parsed (.jArr [pileItem "s" gs, pileItem "t" gt])) (some "s") (some "t")
        (some .jNull) none = .error .requiredMissing
    ∧ extract_from_pile cfg (.parsed (.jArr [pileItem "s" gs])) (some "s") (some .jNull) none
        none cd = .error .requiredMissing
    ∧ (0 ≤ idx → idx < (gs.length : Int) →
        exceptIsOk (add_to_pile_core (.jArr [pileItem "s" gs, pileItem "t" gt]) "s" "t" idx) =
          true
        ∧ exceptIsOk (extract_from_pile_core cfg (.jArr [pileItem "s" gs]) "s" idx none cd) =
          true)
    ∧ (-(gs.length : Int) ≤ idx → idx < 0 →
        exceptIsOk (add_to_pile_core (.jArr [pileItem "s" gs, pileItem "t" gt]) "s" "t" idx) =
          true
        ∧ exceptIsOk (extract_from_pile_core cfg (.jArr [pileItem "s" gs]) "s" idx none cd) =
          true)
    ∧ (idx < -(gs.length : Int) →
        add_to_pile_core (.jArr [pileItem "s" gs, pileItem "t" gt]) "s" "t" idx =
          .error .indexError) := by
  have hscanA : add_scan "s" "t"
      [JVal.jObj [("id", JVal.jStr "s"), ("gallery", JVal.jArr gs)],
       JVal.jObj [("id", JVal.jStr "t"), ("gallery", JVal.jArr gt)]] 0 none none =
      .ok (some (0, JVal.jObj [("id", JVal.jStr "s"), ("gallery", JVal.jArr gs)]),
           some (1, JVal.jObj [("id", JVal.jStr "t"), ("gallery", JVal.jArr gt)])) := rfl
  have hscanE : extract_scan "s" [JVal.jObj [("id", .jStr "s"), ("gallery", .jArr gs)]] 0 =
      .ok (some (0, [("id", .jStr "s"), ("gallery", .jArr gs)])) := rfl
  refine ⟨?_, rfl, rfl, ?_, ?_, ?_⟩
  · intro hge
    constructor
    · simp only [pileItem, add_to_pile_core, pyIter, hscanA]
      rw [if_neg (by simp [pyTruthy]), if_neg (by simp [pyTruthy])]
      rw [show objGet [("id", JVal.jStr "s"), ("gallery", JVal.jArr gs)] "gallery" =
        some (.jArr gs) from rfl]
      simp only [pyLen]
      rw [if_pos hge]
    · simp only [pileItem, extract_from_pile_core, pyIter, hscanE]
      rw [if_neg (by simp [pyTruthy])]
      rw [show objGet [("id", JVal.jStr "s"), ("gallery", JVal.jArr gs)] "gallery" =
        some (.jArr gs) from rfl]
      simp only [pyLen]
      rw [if_pos hge]
  · intro h0 h1
    have h2 : idx.toNat < gs.length := by omega
    have hp := pyPop_int_nonneg gs idx h0 h1 h2
    constructor
    · rw [add_core_two_fwd gs gt idx _ _ (by omega) hp]
      rfl
    · exact extract_pile_isOk cfg gs idx cd _ _ (by omega) hp
  · intro h0 h1
    have h2 : (idx + gs.length).toNat < gs.length := by omega
    have hp := pyPop_int_neg gs idx h0 h1 h2
    constructor
    · rw [add_core_two_fwd gs gt idx _ _ (by omega) hp]
      rfl
    · exact extract_pile_isOk cfg gs idx cd _ _ (by omega) hp
  · intro h1
    have hp := pyPop_too_neg gs idx h1
    simp only [pileItem, add_to_pile_core, pyIter, hscanA]
    rw [if_neg (by simp [pyTruthy]), if_neg (by simp [pyTruthy])]
    rw [show objGet [("id", JVal.jStr "s"), ("gallery", JVal.jArr gs)] "gallery" =
      some (.jArr gs) from rfl]
    simp only [pyLen]
    rw [if_neg (by omega), hp]

/-- Witness exercising each guard branch at concrete indices. -/
theorem gallery_index_guard_spec_witness :
    add_to_pile_core (.jArr [pileItem "s" [.jStr "u1", .jStr "u2"], pileItem "t" []])
        "s" "t" 2 = .error .invalidIndex
    ∧ add_to_pile (.parsed (.jArr [pileItem "s" [.jStr "u1", .jStr "u2"], pileItem "t" []]))
        (some "s") (some "t") (some .jNull) none = .error .requiredMissing
    ∧ exceptIsOk (add_to_pile_core (.jArr [pileItem "s" [.jStr "u1", .jStr "u2"],
        pileItem "t" []]) "s" "t" 1) = true
    ∧ exceptIsOk (add_to_pile_core (.jArr [pileItem "s" [.jStr "u1", .jStr "u2"],
        pileItem "t" []]) "s" "t" (-2)) = true
    ∧ add_to_pile_core (.jArr [pileItem "s" [.jStr "u1", .jStr "u2"], pileItem "t" []])
        "s" "t" (-3) = .error .indexError := by
  have h := gallery_index_guard_spec [JVal.jStr "u1", JVal.jStr "u2"] [] 2
    ⟨"art", ["en"], 0, "d"⟩ ""
  have h1 := gallery_index_guard_spec [JVal.jStr "u1", JVal.jStr "u2"] [] 1
    ⟨"art", ["en"], 0, "d"⟩ ""
  have h2 := gallery_index_guard_spec [JVal.jStr "u1", JVal.jStr "u2"] [] (-2)
    ⟨"art", ["en"], 0, "d"⟩ ""
  have h3 := gallery_index_guard_spec [JVal.jStr "u1", JVal.jStr "u2"] [] (-3)
    ⟨"art", ["en"], 0, "d"⟩ ""
  refine ⟨(h.1 (by decide)).1, h.2.1, (h1.2.2.2.1 (by decide) (by decide)).1,
    (h2.2.2.2.2.1 (by decide) (by decide)).1, h3.2.2.2.2.2 (by decide)⟩

/-- Claim C8, counterexample: when the title scalar is the empty string,
`upload_and_save` stores the entry with a `"title"` key mapped to JSON
null — the field is present, not omitted from the stored item (the
`medium`/`genre`/`description` fields are guarded and omitted, but
`title` is set unconditionally). -/
theorem empty_title_stored_as_null_counterexample :
    upload_new_entry ["en", "fr"] "art" 7 "2020-01-02" (some "") none none none none
        (.jStr "u") [] =
      [("id", .jStr "art_7"), ("title", .jNull), ("url", .jStr "u"),
        ("date", .jStr "2020-01-02"), ("created", .jStr "2020-01-02")]
    ∧ objGet [("id", .jStr "art_7"), ("title", .jNull), ("url", .jStr "u"),
        ("date", .jStr "2020-01-02"), ("created", .jStr "2020-01-02")] "title" =
      some .jNull :=
  ⟨rfl, rfl⟩

/-- Claim C8, amended: the multilingual field builder returns null when
the scalar is empty or absent and otherwise a mapping assigning the
scalar to every configured language code (in particular
`build("", ["en","fr"])` is null, not `{"en":"","fr":""}`); the
optional fields are omitted from the stored item when empty, but the
`title` field is stored as null rather than omitted. -/
theorem make_multilingual_spec (langs : List String) (s : String) :
    make_multilingual langs none = none
    ∧ make_multilingual langs (some "") = none
    ∧ (s ≠ "" → make_multilingual langs (some s) =
        some (.jObj (langs.map fun c => (c, .jStr s))))
    ∧ objGet (upload_new_entry langs "art" 0 "d" (some "") (some "") none none none
        (.jStr "u") []) "title" = some .jNull
    ∧ objHas (upload_new_entry langs "art" 0 "d" (some "") (some "") none none none
        (.jStr "u") []) "medium" = false := by
  refine ⟨rfl, rfl, ?_, rfl, rfl⟩
  intro hs
  simp [make_multilingual, create_multilingual_object, hs]

/-- Witness for the builder behaviour at concrete inputs. -/
theorem make_multilingual_spec_witness :
    ("x" : String) ≠ ""
    ∧ make_multilingual ["en", "fr"] none = none
    ∧ make_multilingual ["en", "fr"] (some "") = none
    ∧ make_multilingual ["en", "fr"] (some "x") =
        some (.jObj [("en", .jStr "x"), ("fr", .jStr "x")])
    ∧ objGet (upload_new_entry ["en", "fr"] "art" 0 "d" (some "") (some "") none none none
        (.jStr "u") []) "title" = some .jNull := by
  have h := make_multilingual_spec ["en", "fr"] "x"
  exact ⟨by decide, h.1, h.2.1, h.2.2.1 (by decide), h.2.2.2.1⟩

end Portfolio
